import Mathlib

/-!
Shallow embedding of `ffi/examples/debug_proxy.c` (the interactive debug-proxy
shell driver).  The driver calls a fixed sequence of C API functions; each call
is modelled as an event carrying the arguments the driver passes and the error
code the call returns.  The outcome of every external call is supplied by an
`Env` record, so the driver itself is a pure function from the environment,
the argument vector and the stdin byte stream to the list of events it
produces and its exit code.
-/

namespace DebugProxy

/-- The C API functions invoked by `main` in `debug_proxy.c`, with the
arguments that the driver passes to them (only those that matter for the
behaviour of the driver are recorded). -/
inductive ApiCall where
  | initLogger
  | pairingFileRead (path : String)
  | tcpProviderNew (label : String)
  | coreDeviceProxyConnect
  | getServerRsdPort
  | createTcpAdapter
  | adapterConnect (port : Nat) (stream : Nat)
  | rsdHandshakeNew (stream : Nat)
  | debugProxyConnectRsd
  | commandNew (name : Option String) (args : List String)
  | sendCommand (name : Option String) (args : List String)
  | readResponse
  | pairingFileFree
  | providerFree
  | coreDeviceProxyFree
  | adapterClose (stream : Nat)
  | adapterFree
  | rsdHandshakeFree
  | debugProxyFree
  | commandFree
  | stringFree (s : String)
  deriving DecidableEq, Repr

/-- One observable event of the driver: an API call together with the
error code it returned (0 is `IdeviceSuccess`), a line printed to stdout,
or a line printed to stderr. -/
inductive Ev where
  | call (api : ApiCall) (ret : Nat)
  | printOut (s : String)
  | printErr (s : String)
  deriving DecidableEq, Repr

/-- Environment: the results of every external call the driver can make.
Setup calls are one-shot, so a single code each; the interactive calls are
indexed by the loop-iteration counter.  `readRes i` lists what successive
`debug_proxy_read_response` calls of iteration `i` return; once the list is
exhausted further calls return `(0, none)` (success with a NULL response). -/
structure Env where
  ipOk : Bool
  pairingReadErr : Nat
  tcpProviderErr : Nat
  coreConnectErr : Nat
  rsdPortErr : Nat
  rsdPort : Nat
  createAdapterErr : Nat
  adapterConnectErr : Nat
  streamId : Nat
  handshakeErr : Nat
  debugProxyErr : Nat
  cmdNewOk : Nat → Bool
  sendRes : Nat → Nat × Option String
  readRes : Nat → List (Nat × Option String)

/-! ## fgets and newline stripping (lines 141-153 of the C file) -/

/-- Model of `fgets(buf, n+1, stdin)` reading from the byte stream `s`:
reads at most `n` characters, stopping after the first newline.  Returns the
buffer contents and the unread remainder of the stream. -/
def fgetsAux : Nat → List Char → List Char × List Char
  | 0, s => ([], s)
  | _ + 1, [] => ([], [])
  | n + 1, c :: s =>
    if c = '\n' then ([c], s)
    else
      let p := fgetsAux n s
      (c :: p.1, p.2)

theorem fgetsAux_fst_length : ∀ (n : Nat) (s : List Char), (fgetsAux n s).1.length ≤ n := by
  intro n
  induction n with
  | zero => intro s; simp [fgetsAux]
  | succ n ih =>
    intro s
    cases s with
    | nil => simp [fgetsAux]
    | cons c s =>
      by_cases h : c = '\n'
      · simp [fgetsAux, h]
      · simp only [fgetsAux, if_neg h, List.length_cons]
        exact Nat.succ_le_succ (ih s)

theorem fgetsAux_snd_length_le : ∀ (n : Nat) (s : List Char), (fgetsAux n s).2.length ≤ s.length := by
  intro n
  induction n with
  | zero => intro s; simp [fgetsAux]
  | succ n ih =>
    intro s
    cases s with
    | nil => simp [fgetsAux]
    | cons c s =>
      by_cases h : c = '\n'
      · simp [fgetsAux, h]
      · simp only [fgetsAux, if_neg h, List.length_cons]
        exact Nat.le_succ_of_le (ih s)

theorem fgetsAux_snd_length_lt (n : Nat) (c : Char) (s : List Char) :
    (fgetsAux (n + 1) (c :: s)).2.length < (c :: s).length := by
  by_cases h : c = '\n'
  · simp [fgetsAux, h]
  · simp only [fgetsAux, if_neg h, List.length_cons]
    exact Nat.lt_succ_of_le (fgetsAux_snd_length_le n s)

/-- Model of `command[strcspn(command, "\n")] = '\0'`: the C string is
truncated at its first newline. -/
def stripNewline (buf : List Char) : List Char :=
  buf.takeWhile (fun ch => ch ≠ '\n')

/-! ## strtok-based command parsing (lines 160-179 of the C file) -/

/-- One `strtok(s, " ")` step: skip leading spaces; if nothing is left there
is no token (`strtok` returns NULL and the saved pointer rests at the
terminator, so the remainder is empty).  Otherwise the token runs to the next
space or the end; if it ends at a space that delimiter is consumed (overwritten
with a terminator by `strtok`) and the remainder is what follows it. -/
def strtok1 (s : List Char) : Option (List Char) × List Char :=
  let t := s.dropWhile (fun ch => ch = ' ')
  if t.isEmpty then (none, [])
  else
    let tok := t.takeWhile (fun ch => ch ≠ ' ')
    match t.dropWhile (fun ch => ch ≠ ' ') with
    | [] => (some tok, [])
    | _ :: rs => (some tok, rs)

theorem length_dropWhile_le (p : Char → Bool) :
    ∀ (l : List Char), (l.dropWhile p).length ≤ l.length := by
  intro l
  induction l with
  | nil => simp [List.dropWhile]
  | cons a l ih =>
    by_cases h : p a
    · simp only [List.dropWhile, h, List.length_cons]
      exact Nat.le_succ_of_le ih
    · simp [List.dropWhile, h]

theorem strtok1_some_lt {s t : List Char} {r : List Char}
    (h : strtok1 s = (some t, r)) : r.length < s.length := by
  unfold strtok1 at h
  by_cases he : (s.dropWhile (fun ch => ch = ' ')).isEmpty
  · simp [he] at h
  · simp only [he, if_false, Bool.false_eq_true, if_neg] at h
    have hdl : (s.dropWhile (fun ch => ch = ' ')).length ≤ s.length :=
      length_dropWhile_le _ _
    have hne : s.dropWhile (fun ch => ch = ' ') ≠ [] := by
      intro hnil; rw [hnil] at he; simp at he
    have hslen : 0 < s.length := by
      by_contra hz
      have : s = [] := by
        cases s with
        | nil => rfl
        | cons a l => simp at hz
      rw [this] at hne
      simp [List.dropWhile] at hne
    have hdl2 : ((s.dropWhile (fun ch => ch = ' ')).dropWhile
        (fun ch => ch ≠ ' ')).length ≤ s.length :=
      le_trans (length_dropWhile_le _ _) hdl
    revert h
    cases hcase : (s.dropWhile (fun ch => ch = ' ')).dropWhile (fun ch => ch ≠ ' ') with
    | nil =>
      intro h
      have hr : r = [] := by
        have := congrArg Prod.snd h
        simpa using this.symm
      simpa [hr] using hslen
    | cons b bs =>
      intro h
      have hr : r = bs := by
        have := congrArg Prod.snd h
        simpa using this.symm
      rw [hcase] at hdl2
      have : bs.length < s.length := by
        simp only [List.length_cons] at hdl2
        omega
      simpa [hr] using this

/-- Fuelled worker for `strtokList`; each `strtok` step consumes at least one
character of `s`, so fuel `s.length` always suffices. -/
def strtokListAux : Nat → List Char → List (List Char)
  | 0, _ => []
  | fuel + 1, s =>
    match strtok1 s with
    | (none, _) => []
    | (some t, rest) => t :: strtokListAux fuel rest

/-- The tokens produced by repeated `strtok(·, " ")` calls on `s`
(space-delimited, empty tokens impossible). -/
def strtokList (s : List Char) : List (List Char) :=
  strtokListAux s.length s

theorem strtokListAux_irrel : ∀ (f g : Nat) (s : List Char),
    s.length ≤ f → s.length ≤ g → strtokListAux f s = strtokListAux g s := by
  intro f
  induction f with
  | zero =>
    intro g s hf _
    have : s = [] := List.length_eq_zero.mp (Nat.le_zero.mp hf)
    subst this
    cases g with
    | zero => rfl
    | succ g => simp [strtokListAux, strtok1, List.dropWhile]
  | succ f ih =>
    intro g s hf hg
    cases g with
    | zero =>
      have : s = [] := List.length_eq_zero.mp (Nat.le_zero.mp hg)
      subst this
      simp [strtokListAux, strtok1, List.dropWhile]
    | succ g =>
      show strtokListAux (f + 1) s = strtokListAux (g + 1) s
      unfold strtokListAux
      cases h : strtok1 s with
      | mk fst rest =>
        cases fst with
        | none => rfl
        | some t =>
          have hlt : rest.length < s.length := strtok1_some_lt h
          simp only
          rw [ih g rest (by omega) (by omega)]

/-- The defining step of `strtokList`. -/
theorem strtokList_eq (s : List Char) : strtokList s =
    match strtok1 s with
    | (none, _) => []
    | (some t, rest) => t :: strtokList rest := by
  cases h : strtok1 s with
  | mk fst rest =>
    cases fst with
    | none =>
      show strtokList s = []
      unfold strtokList
      cases hl : s.length with
      | zero => rfl
      | succ n => simp [strtokListAux, h]
    | some t =>
      show strtokList s = t :: strtokList rest
      have hlt : rest.length < s.length := strtok1_some_lt h
      unfold strtokList
      cases hl : s.length with
      | zero => omega
      | succ n =>
        simp only [strtokListAux, h]
        rw [strtokListAux_irrel n rest.length rest (by omega) le_rfl]

/-- Fuelled worker for `argTokLoop`. -/
def argTokLoopAux : Nat → List Char → Nat → List (List Char)
  | 0, _, _ => []
  | fuel + 1, s, argc =>
    match strtok1 s with
    | (none, _) => []
    | (some t, rest) =>
      if argc < 15 then t :: argTokLoopAux fuel rest (argc + 1) else []

/-- The argument-splitting loop of the driver
(`while (token != NULL && argc < 15)`): collects space-delimited tokens of
`s`, stopping once `argc` reaches 15. -/
def argTokLoop (s : List Char) (argc : Nat) : List (List Char) :=
  argTokLoopAux s.length s argc

theorem argTokLoopAux_irrel : ∀ (f g : Nat) (s : List Char) (argc : Nat),
    s.length ≤ f → s.length ≤ g →
    argTokLoopAux f s argc = argTokLoopAux g s argc := by
  intro f
  induction f with
  | zero =>
    intro g s argc hf _
    have : s = [] := List.length_eq_zero.mp (Nat.le_zero.mp hf)
    subst this
    cases g with
    | zero => rfl
    | succ g => simp [argTokLoopAux, strtok1, List.dropWhile]
  | succ f ih =>
    intro g s argc hf hg
    cases g with
    | zero =>
      have : s = [] := List.length_eq_zero.mp (Nat.le_zero.mp hg)
      subst this
      simp [argTokLoopAux, strtok1, List.dropWhile]
    | succ g =>
      show argTokLoopAux (f + 1) s argc = argTokLoopAux (g + 1) s argc
      unfold argTokLoopAux
      cases h : strtok1 s with
      | mk fst rest =>
        cases fst with
        | none => rfl
        | some t =>
          have hlt : rest.length < s.length := strtok1_some_lt h
          simp only
          rw [ih g rest (argc + 1) (by omega) (by omega)]

/-- The defining step of `argTokLoop`. -/
theorem argTokLoop_eq (s : List Char) (argc : Nat) : argTokLoop s argc =
    match strtok1 s with
    | (none, _) => []
    | (some t, rest) =>
      if argc < 15 then t :: argTokLoop rest (argc + 1) else [] := by
  cases h : strtok1 s with
  | mk fst rest =>
    cases fst with
    | none =>
      show argTokLoop s argc = []
      unfold argTokLoop
      cases hl : s.length with
      | zero => rfl
      | succ n => simp [argTokLoopAux, h]
    | some t =>
      show argTokLoop s argc =
        if argc < 15 then t :: argTokLoop rest (argc + 1) else []
      have hlt : rest.length < s.length := strtok1_some_lt h
      unfold argTokLoop
      cases hl : s.length with
      | zero => omega
      | succ n =>
        simp only [argTokLoopAux, h]
        rw [argTokLoopAux_irrel n rest.length rest (argc + 1) (by omega) le_rfl]

/-- Lines 160-179: `name = strtok(command, " "); args = strtok(NULL, "")`.
`args` is NULL exactly when nothing follows the name token, and since a C
string never starts with its own terminator, `args[0] != '\0'` holds whenever
`args` is non-NULL; in that case the driver splits `args` into at most 15
space-delimited argument tokens, otherwise it passes no arguments. -/
def parseCommandLine (line : List Char) : Option (List Char) × List (List Char) :=
  let p := strtok1 line
  match p.2 with
  | [] => (p.1, [])
  | _ :: _ => (p.1, argTokLoop p.2 0)

theorem argTokLoop_eq_take_aux : ∀ (n : Nat) (s : List Char), s.length ≤ n →
    ∀ (argc : Nat), argTokLoop s argc = (strtokList s).take (15 - argc) := by
  intro n
  induction n with
  | zero =>
    intro s hs argc
    have hnil : s = [] := List.length_eq_zero.mp (Nat.le_zero.mp hs)
    subst hnil
    rw [argTokLoop_eq, strtokList_eq]
    simp [strtok1, List.dropWhile]
  | succ n ih =>
    intro s hs argc
    rw [argTokLoop_eq, strtokList_eq]
    cases h : strtok1 s with
    | mk fst rest =>
      cases fst with
      | none => simp
      | some t =>
        simp only
        by_cases hc : argc < 15
        · have hlt : rest.length < s.length := strtok1_some_lt h
          have hrec := ih rest (by omega) (argc + 1)
          rw [if_pos hc, hrec]
          have h15 : 15 - argc = (15 - (argc + 1)) + 1 := by omega
          rw [h15, List.take_succ_cons]
        · rw [if_neg hc]
          have h15 : 15 - argc = 0 := by omega
          rw [h15, List.take_zero]

/-- The argument loop collects exactly the first `15 - argc` tokens. -/
theorem argTokLoop_eq_take (s : List Char) (argc : Nat) :
    argTokLoop s argc = (strtokList s).take (15 - argc) :=
  argTokLoop_eq_take_aux s.length s le_rfl argc

/-! ## The interactive loop (lines 144-212 of the C file) -/

/-- Lines 196-201: print the response returned by `debug_proxy_send_command`
(and free it), or print `(no response)` when it is NULL. -/
def respEvents : Option String → List Ev
  | some s => [.printOut (s ++ "\n"), .call (.stringFree s) 0]
  | none => [.printOut "(no response)\n"]

/-- Lines 203-211: the `while (true)` drain loop.  Each entry of `rs` is what
one `debug_proxy_read_response` call returns; after the list is exhausted the
call returns `(0, none)`.  The loop breaks at the first call returning a
non-success code or a NULL response; each successful non-NULL response is
printed and freed. -/
def drainEvents : List (Nat × Option String) → List Ev
  | [] => [.call .readResponse 0]
  | (e, r) :: rest =>
    if e ≠ 0 then [.call .readResponse e]
    else
      match r with
      | none => [.call .readResponse 0]
      | some s => .call .readResponse 0 :: .printOut (s ++ "\n") ::
          .call (.stringFree s) 0 :: drainEvents rest

/-- Lines 160-211: the body of one loop iteration after the quit test, for
the stripped line `line`; `i` is the iteration counter indexing into the
environment. -/
def iterEvents (env : Env) (i : Nat) (line : List Char) : List Ev :=
  let p := parseCommandLine line
  let name := p.1.map (fun cs => String.mk cs)
  let args := p.2.map (fun cs => String.mk cs)
  let cEv := Ev.call (.commandNew name args) 0
  if env.cmdNewOk i then
    let sr := env.sendRes i
    let sEv := Ev.call (.sendCommand name args) sr.1
    if sr.1 ≠ 0 then
      [cEv, sEv, .call .commandFree 0,
        .printErr ("Command failed with error: " ++ toString sr.1 ++ "\n")]
    else
      [cEv, sEv, .call .commandFree 0] ++ respEvents sr.2 ++ drainEvents (env.readRes i)
  else
    [cEv, .printErr "Failed to create command\n"]

/-- Lines 144-212: the `while (running)` loop.  Each iteration prints the
prompt, reads a line with `fgets` (breaking on EOF), strips the newline,
stops when the line is exactly `quit`, and otherwise runs the iteration body
and continues on the unread remainder of stdin. -/
theorem fgetsAux_snd_lt_of_ne (n : Nat) (s : List Char) (hs : s ≠ []) :
    (fgetsAux (n + 1) s).2.length < s.length := by
  cases s with
  | nil => exact absurd rfl hs
  | cons c rest => exact fgetsAux_snd_length_lt n c rest

/-- Fuelled worker for `shellLoop`; each iteration consumes at least one
character of the stream, so fuel `input.length + 1` always suffices. -/
def shellLoopAux : Nat → Env → Nat → List Char → List Ev
  | 0, _, _, _ => []
  | fuel + 1, env, i, input =>
    Ev.printOut "debug> " ::
      (match input with
       | [] => []
       | c :: rest =>
         let fg := fgetsAux 1023 (c :: rest)
         let line := stripNewline fg.1
         if line = "quit".toList then []
         else iterEvents env i line ++ shellLoopAux fuel env (i + 1) fg.2)

def shellLoop (env : Env) (i : Nat) (input : List Char) : List Ev :=
  shellLoopAux (input.length + 1) env i input

theorem shellLoopAux_irrel : ∀ (f g : Nat) (env : Env) (i : Nat)
    (input : List Char), input.length < f → input.length < g →
    shellLoopAux f env i input = shellLoopAux g env i input := by
  intro f
  induction f with
  | zero => intro g env i input hf; omega
  | succ f ih =>
    intro g env i input hf hg
    cases g with
    | zero => omega
    | succ g =>
      show shellLoopAux (f + 1) env i input = shellLoopAux (g + 1) env i input
      unfold shellLoopAux
      cases input with
      | nil => rfl
      | cons c rest =>
        simp only
        have hlt : (fgetsAux 1023 (c :: rest)).2.length < (c :: rest).length :=
          fgetsAux_snd_length_lt 1022 c rest
        by_cases hq : stripNewline (fgetsAux 1023 (c :: rest)).1 = "quit".toList
        · simp [hq]
        · rw [if_neg hq, if_neg hq]
          rw [ih g env (i + 1) (fgetsAux 1023 (c :: rest)).2 (by omega) (by omega)]

/-- The defining step of `shellLoop`: print the prompt, break on EOF,
read and strip a line, stop on `quit`, otherwise run the iteration body and
continue on the unread remainder. -/
theorem shellLoop_eq (env : Env) (i : Nat) (input : List Char) :
    shellLoop env i input =
    Ev.printOut "debug> " ::
      (match input with
       | [] => []
       | c :: rest =>
         let fg := fgetsAux 1023 (c :: rest)
         let line := stripNewline fg.1
         if line = "quit".toList then []
         else iterEvents env i line ++ shellLoop env (i + 1) fg.2) := by
  cases input with
  | nil => rfl
  | cons c rest =>
    have hlt : (fgetsAux 1023 (c :: rest)).2.length < (c :: rest).length :=
      fgetsAux_snd_length_lt 1022 c rest
    have hstep : shellLoopAux (rest.length + 1 + 1) env i (c :: rest) =
        Ev.printOut "debug> " ::
          (if stripNewline (fgetsAux 1023 (c :: rest)).1 = "quit".toList then []
           else iterEvents env i (stripNewline (fgetsAux 1023 (c :: rest)).1) ++
             shellLoopAux (rest.length + 1) env (i + 1)
               (fgetsAux 1023 (c :: rest)).2) := rfl
    show shellLoopAux ((c :: rest).length + 1) env i (c :: rest) =
      Ev.printOut "debug> " ::
        (if stripNewline (fgetsAux 1023 (c :: rest)).1 = "quit".toList then []
         else iterEvents env i (stripNewline (fgetsAux 1023 (c :: rest)).1) ++
           shellLoop env (i + 1) (fgetsAux 1023 (c :: rest)).2)
    rw [show (c :: rest).length + 1 = rest.length + 1 + 1 from by simp, hstep]
    by_cases hq : stripNewline (fgetsAux 1023 (c :: rest)).1 = "quit".toList
    · rw [if_pos hq, if_pos hq]
    · rw [if_neg hq, if_neg hq]
      unfold shellLoop
      rw [shellLoopAux_irrel (rest.length + 1) ((fgetsAux 1023 (c :: rest)).2.length + 1)
        env (i + 1) (fgetsAux 1023 (c :: rest)).2 (by simp at hlt ⊢; omega) (by omega)]

/-- Lines 217-221: the cleanup epilogue after the loop. -/
def cleanupEvents : List Ev :=
  [.call .debugProxyFree 0, .call .rsdHandshakeFree 0, .call .adapterFree 0,
    .printOut "\nDebug session ended\n"]

/-! ## main (lines 18-222 of the C file) -/

/-- The whole of `main`: argument check, setup stage chain (each stage
printing a diagnostic, freeing the resources acquired so far and returning 1
on a non-success code), the interactive loop and the cleanup.  Returns the
event trace and the exit code.  `argv` is the C argument vector including the
program name; `input` is the stdin byte stream. -/
def mainRun (env : Env) (argv : List String) (input : List Char) : List Ev × Nat :=
  let e0 := [Ev.call .initLogger 0]
  if argv.length < 2 then
    (e0 ++ [.printOut ("Usage: " ++ argv.getD 0 "" ++ " <device_ip> [pairing_file]\n"),
      .printOut ("Example: " ++ argv.getD 0 "" ++ " 10.0.0.1 pairing.plist\n")], 1)
  else
    let pairingFile := argv.getD 2 "pairing.plist"
    let e1 := e0 ++ [.printOut "=== Setting up CoreDeviceProxy ===\n"]
    if env.ipOk then
      let e2 := e1 ++ [.call (.pairingFileRead pairingFile) env.pairingReadErr]
      if env.pairingReadErr ≠ 0 then
        (e2 ++ [.printErr ("Failed to read pairing file: " ++
          toString env.pairingReadErr ++ "\n")], 1)
      else
        let e3 := e2 ++ [.call (.tcpProviderNew "DebugProxyShell") env.tcpProviderErr]
        if env.tcpProviderErr ≠ 0 then
          (e3 ++ [.printErr ("Failed to create TCP provider: " ++
            toString env.tcpProviderErr ++ "\n"), .call .pairingFileFree 0], 1)
        else
          let e4 := e3 ++ [.call .coreDeviceProxyConnect env.coreConnectErr]
          if env.coreConnectErr ≠ 0 then
            (e4 ++ [.printErr ("Failed to connect to CoreDeviceProxy: " ++
              toString env.coreConnectErr ++ "\n"), .call .providerFree 0], 1)
          else
            let e5 := e4 ++ [.call .providerFree 0,
              .call .getServerRsdPort env.rsdPortErr]
            if env.rsdPortErr ≠ 0 then
              (e5 ++ [.printErr ("Failed to get server RSD port: " ++
                toString env.rsdPortErr ++ "\n"), .call .coreDeviceProxyFree 0], 1)
            else
              let e6 := e5 ++ [.printOut ("Server RSD Port: " ++
                  toString env.rsdPort ++ "\n"),
                .printOut "\n=== Creating TCP Tunnel Adapter ===\n",
                .call .createTcpAdapter env.createAdapterErr]
              if env.createAdapterErr ≠ 0 then
                (e6 ++ [.printErr ("Failed to create TCP adapter: " ++
                  toString env.createAdapterErr ++ "\n"),
                  .call .coreDeviceProxyFree 0], 1)
              else
                let e7 := e6 ++ [.call (.adapterConnect env.rsdPort env.streamId)
                  env.adapterConnectErr]
                if env.adapterConnectErr ≠ 0 then
                  (e7 ++ [.printErr ("Failed to connect to RSD port: " ++
                    toString env.adapterConnectErr ++ "\n"), .call .adapterFree 0], 1)
                else
                  let e8 := e7 ++ [.printOut "Successfully connected to RSD port\n",
                    .printOut "\n=== Performing RSD Handshake ===\n",
                    .call (.rsdHandshakeNew env.streamId) env.handshakeErr]
                  if env.handshakeErr ≠ 0 then
                    (e8 ++ [.printErr ("Failed to perform RSD handshake: " ++
                      toString env.handshakeErr ++ "\n"),
                      .call (.adapterClose env.streamId) 0, .call .adapterFree 0], 1)
                  else
                    let e9 := e8 ++ [.printOut "\n=== Setting up Debug Proxy ===\n",
                      .call .debugProxyConnectRsd env.debugProxyErr]
                    if env.debugProxyErr ≠ 0 then
                      (e9 ++ [.printErr ("Failed to create debug proxy client: " ++
                        toString env.debugProxyErr ++ "\n"),
                        .call .rsdHandshakeFree 0, .call .adapterFree 0], 1)
                    else
                      (e9 ++ [.printOut "\n=== Starting Interactive Debug Shell ===\n",
                        .printOut "Type GDB debugserver commands or \x27quit\x27 to exit\n\n"]
                        ++ shellLoop env 0 input ++ cleanupEvents, 0)
    else
      (e1 ++ [.printErr "Invalid IP address\n"], 1)

/-! ## The debugserver command value -/

/-- A debugserver command value: a name and an ordered argument list. -/
structure DebugserverCommand where
  name : String
  arguments : List String
  deriving DecidableEq, Repr

/-- Modelled from the spec: `debugserver_command_new` is implemented in the
Rust FFI layer, which is not part of the source under verification.  Per the
spec, a DebugCommand is a name together with an ordered sequence of argument
strings; the constructor receives a name pointer, an argument vector and an
argument count and builds that value from the first `argc` entries, failing
(NULL) when no name is given. -/
def debugserver_command_new (name : Option String) (argv : List String)
    (argc : Nat) : Option DebugserverCommand :=
  name.map (fun n => { name := n, arguments := argv.take argc })

/-- The command value the driver builds from one input line: the parse of
lines 160-179 fed to `debugserver_command_new` exactly as the driver does
(the argument count passed is the number of collected tokens; in the
args-NULL branch it is 0 and the vector is empty). -/
def builtCommand (line : List Char) : Option DebugserverCommand :=
  let p := parseCommandLine line
  debugserver_command_new (p.1.map (fun cs => String.mk cs))
    (p.2.map (fun cs => String.mk cs)) p.2.length

/-! ## Trace observation helpers -/

/-- The API functions invoked inside the interactive loop body. -/
def isLoopApi : ApiCall → Bool
  | .commandNew _ _ => true
  | .sendCommand _ _ => true
  | .commandFree => true
  | .stringFree _ => true
  | .readResponse => true
  | _ => false

/-- An event is loop-safe when any API call it carries is one of the
interactive-loop API functions. -/
def loopSafe : Ev → Bool
  | .call a _ => isLoopApi a
  | _ => true

/-- Number of call events in a trace whose API function satisfies `q`. -/
def callCount (q : ApiCall → Bool) : List Ev → Nat
  | [] => 0
  | .call a _ :: rest => (if q a then 1 else 0) + callCount q rest
  | _ :: rest => callCount q rest

/-- A stderr diagnostic event. -/
def isErrPrint : Ev → Bool
  | .printErr _ => true
  | _ => false

/-- Every call event whose API function is not skipped and whose returned
code is non-success is followed, somewhere later in the trace, by a stderr
diagnostic. -/
def failuresDiagnosed (skip : ApiCall → Bool) : List Ev → Bool
  | [] => true
  | Ev.call a r :: rest =>
    (skip a || r == 0 || rest.any isErrPrint) && failuresDiagnosed skip rest
  | _ :: rest => failuresDiagnosed skip rest

/-- Skip set containing exactly `debug_proxy_read_response`. -/
def skipRead : ApiCall → Bool := fun a => a == ApiCall.readResponse

/-- The position of an API call in the eight-stage setup chain. -/
def stageIdx : ApiCall → Option Nat
  | .pairingFileRead _ => some 0
  | .tcpProviderNew _ => some 1
  | .coreDeviceProxyConnect => some 2
  | .getServerRsdPort => some 3
  | .createTcpAdapter => some 4
  | .adapterConnect _ _ => some 5
  | .rsdHandshakeNew _ => some 6
  | .debugProxyConnectRsd => some 7
  | _ => none

/-- The setup-stage calls occurring in a trace, as stage positions, in trace
order. -/
def stageCalls (tr : List Ev) : List Nat :=
  tr.filterMap (fun e => match e with
    | .call a _ => stageIdx a
    | _ => none)

/-- The error codes of the eight setup stages, in stage order. -/
def stageCodes (env : Env) : List Nat :=
  [env.pairingReadErr, env.tcpProviderErr, env.coreConnectErr, env.rsdPortErr,
    env.createAdapterErr, env.adapterConnectErr, env.handshakeErr, env.debugProxyErr]

/-- Every `adapter_connect` event uses the discovered RSD port and yields the
adapter stream, and every `rsd_handshake_new` event receives that stream. -/
def portConsistent (env : Env) : Ev → Bool
  | .call (.adapterConnect p s) _ => p == env.rsdPort && s == env.streamId
  | .call (.rsdHandshakeNew s) _ => s == env.streamId
  | _ => true

/-- The part of a trace strictly after the first event satisfying `p`
(empty when no event satisfies `p`). -/
def afterFirst (p : Ev → Bool) : List Ev → List Ev
  | [] => []
  | e :: rest => if p e then rest else afterFirst p rest

/-- A successful `core_device_proxy_create_tcp_adapter` call. -/
def isCreateAdapterOk : Ev → Bool
  | .call .createTcpAdapter r => r == 0
  | _ => false

/-- An operation on the CoreDeviceProxy handle. -/
def isCoreDeviceOp : ApiCall → Bool
  | .coreDeviceProxyConnect => true
  | .getServerRsdPort => true
  | .createTcpAdapter => true
  | .coreDeviceProxyFree => true
  | _ => false

/-- An event that is an API call on the CoreDeviceProxy handle. -/
def coreDeviceEv : Ev → Bool
  | .call a _ => isCoreDeviceOp a
  | _ => false

/-- The stdout lines of a trace, in order. -/
def drainedPrints (tr : List Ev) : List String :=
  tr.filterMap (fun e => match e with
    | .printOut s => some s
    | _ => none)

/-- The prompt event starting each loop iteration. -/
def isPrompt : Ev → Bool
  | .printOut s => s == "debug> "
  | _ => false

/-- Number of prompts printed in a trace. -/
def promptCount : List Ev → Nat
  | [] => 0
  | e :: rest => (if isPrompt e then 1 else 0) + promptCount rest

/-- A `debug_proxy_send_command` call. -/
def isSendApi : ApiCall → Bool
  | .sendCommand _ _ => true
  | _ => false

/-- A `debugserver_command_new` call. -/
def isCmdNewApi : ApiCall → Bool
  | .commandNew _ _ => true
  | _ => false

/-- The condition on which the drain loop breaks: a non-success code or a
NULL response. -/
def drainStop : Nat × Option String → Bool :=
  fun p => (p.1 != 0) || p.2.isNone

/-- A concrete environment in which every call succeeds, used to instantiate
universally quantified theorems at explicit inputs. -/
def envBase : Env :=
  { ipOk := true, pairingReadErr := 0, tcpProviderErr := 0, coreConnectErr := 0,
    rsdPortErr := 0, rsdPort := 1234, createAdapterErr := 0,
    adapterConnectErr := 0, streamId := 3, handshakeErr := 0, debugProxyErr := 0,
    cmdNewOk := fun _ => true, sendRes := fun _ => (0, none),
    readRes := fun _ => [] }

/-! ## Loop invariants -/

theorem drainEvents_all_loopSafe (rs : List (Nat × Option String)) :
    (drainEvents rs).all loopSafe = true := by
  induction rs with
  | nil => simp [drainEvents, loopSafe, isLoopApi]
  | cons p rest ih =>
    obtain ⟨e, r⟩ := p
    by_cases he : e = 0
    · subst he
      cases r with
      | none => simp [drainEvents, loopSafe, isLoopApi]
      | some s => simpa [drainEvents, loopSafe, isLoopApi] using ih
    · simp [drainEvents, he, loopSafe, isLoopApi]

theorem respEvents_all_loopSafe (r : Option String) :
    (respEvents r).all loopSafe = true := by
  cases r <;> simp [respEvents, loopSafe, isLoopApi]

theorem iterEvents_all_loopSafe (env : Env) (i : Nat) (line : List Char) :
    (iterEvents env i line).all loopSafe = true := by
  unfold iterEvents
  by_cases hc : env.cmdNewOk i
  · by_cases hs : (env.sendRes i).1 ≠ 0
    · simp [hc, hs, loopSafe, isLoopApi]
    · simp [hc, hs, loopSafe, isLoopApi, List.all_append,
        respEvents_all_loopSafe, drainEvents_all_loopSafe]
  · simp [hc, loopSafe, isLoopApi]

theorem shellLoop_all_loopSafe_aux : ∀ (n : Nat) (env : Env) (i : Nat)
    (input : List Char), input.length ≤ n →
    (shellLoop env i input).all loopSafe = true := by
  intro n
  induction n with
  | zero =>
    intro env i input h
    have : input = [] := List.length_eq_zero.mp (Nat.le_zero.mp h)
    subst this
    rw [shellLoop_eq]
    simp [loopSafe]
  | succ n ih =>
    intro env i input h
    rw [shellLoop_eq]
    cases input with
    | nil => simp [loopSafe]
    | cons c rest =>
      have hlt : (fgetsAux 1023 (c :: rest)).2.length < (c :: rest).length :=
        fgetsAux_snd_length_lt 1022 c rest
      by_cases hq : stripNewline (fgetsAux 1023 (c :: rest)).1 = "quit".toList
      · simp [hq, loopSafe]
      · simp only [if_neg hq, List.all_cons, List.all_append, Bool.and_eq_true]
        exact ⟨by simp [loopSafe], iterEvents_all_loopSafe env i _,
          ih env (i + 1) _ (by simp only [List.length_cons] at hlt h; omega)⟩

theorem shellLoop_all_loopSafe (env : Env) (i : Nat) (input : List Char) :
    (shellLoop env i input).all loopSafe = true :=
  shellLoop_all_loopSafe_aux input.length env i input le_rfl

theorem shellLoop_mem_loopSafe {env : Env} {i : Nat} {input : List Char}
    {e : Ev} (he : e ∈ shellLoop env i input) : loopSafe e = true :=
  List.all_eq_true.mp (shellLoop_all_loopSafe env i input) e he

theorem callCount_append (q : ApiCall → Bool) (xs ys : List Ev) :
    callCount q (xs ++ ys) = callCount q xs + callCount q ys := by
  induction xs with
  | nil => simp [callCount]
  | cons e xs ih =>
    cases e <;> simp [callCount, ih] <;> omega

theorem promptCount_append (xs ys : List Ev) :
    promptCount (xs ++ ys) = promptCount xs + promptCount ys := by
  induction xs with
  | nil => simp [promptCount]
  | cons e xs ih => simp [promptCount, ih]; omega

theorem callCount_printOut (q : ApiCall → Bool) (s : String) (tr : List Ev) :
    callCount q (Ev.printOut s :: tr) = callCount q tr := rfl

theorem promptCount_cons (e : Ev) (tr : List Ev) :
    promptCount (e :: tr) = (if isPrompt e then 1 else 0) + promptCount tr := rfl

theorem callCount_eq_zero_of_all (q : ApiCall → Bool)
    (hq : ∀ a, isLoopApi a = true → q a = false) :
    ∀ tr : List Ev, tr.all loopSafe = true → callCount q tr = 0 := by
  intro tr
  induction tr with
  | nil => intro _; rfl
  | cons e rest ih =>
    intro h
    simp only [List.all_cons, Bool.and_eq_true] at h
    cases e with
    | call a r =>
      have ha : isLoopApi a = true := by simpa [loopSafe] using h.1
      simp [callCount, hq a ha, ih h.2]
    | printOut s => simp [callCount, ih h.2]
    | printErr s => simp [callCount, ih h.2]

theorem callCount_shellLoop_eq_zero (q : ApiCall → Bool)
    (hq : ∀ a, isLoopApi a = true → q a = false)
    (env : Env) (i : Nat) (input : List Char) :
    callCount q (shellLoop env i input) = 0 :=
  callCount_eq_zero_of_all q hq _ (shellLoop_all_loopSafe env i input)

theorem stageCalls_shellLoop (env : Env) (i : Nat) (input : List Char) :
    stageCalls (shellLoop env i input) = [] := by
  unfold stageCalls
  rw [List.filterMap_eq_nil]
  intro e he
  have hsafe := shellLoop_mem_loopSafe he
  cases e with
  | call a r =>
    simp only [loopSafe] at hsafe
    cases a <;> simp_all [isLoopApi, stageIdx]
  | printOut s => rfl
  | printErr s => rfl

theorem portConsistent_shellLoop (env env2 : Env) (i : Nat) (input : List Char) :
    (shellLoop env i input).all (portConsistent env2) = true := by
  rw [List.all_eq_true]
  intro e he
  have hsafe := shellLoop_mem_loopSafe he
  cases e with
  | call a r =>
    simp only [loopSafe] at hsafe
    cases a <;> simp_all [isLoopApi, portConsistent]
  | printOut s => rfl
  | printErr s => rfl

theorem coreDeviceEv_shellLoop (env : Env) (i : Nat) (input : List Char) :
    (shellLoop env i input).any coreDeviceEv = false := by
  rw [List.any_eq_false]
  intro e he
  have hsafe := shellLoop_mem_loopSafe he
  cases e with
  | call a r =>
    simp only [loopSafe] at hsafe
    cases a <;> simp_all [isLoopApi, coreDeviceEv, isCoreDeviceOp]
  | printOut s => simp [coreDeviceEv]
  | printErr s => simp [coreDeviceEv]

/-- An `adapter_connect` call. -/
def isAdapterConnectApi : ApiCall → Bool
  | .adapterConnect _ _ => true
  | _ => false

/-- An `rsd_handshake_new` call. -/
def isRsdHandshakeNewApi : ApiCall → Bool
  | .rsdHandshakeNew _ => true
  | _ => false

theorem adapterConnect_shellLoop (env : Env) (i : Nat) (input : List Char) :
    callCount isAdapterConnectApi (shellLoop env i input) = 0 :=
  callCount_shellLoop_eq_zero _
    (by intro a ha; cases a <;> simp_all [isLoopApi, isAdapterConnectApi]) env i input

theorem rsdHandshakeNew_shellLoop (env : Env) (i : Nat) (input : List Char) :
    callCount isRsdHandshakeNewApi (shellLoop env i input) = 0 :=
  callCount_shellLoop_eq_zero _
    (by intro a ha; cases a <;> simp_all [isLoopApi, isRsdHandshakeNewApi]) env i input

theorem debugProxyFree_shellLoop (env : Env) (i : Nat) (input : List Char) :
    callCount (fun a => a == ApiCall.debugProxyFree) (shellLoop env i input) = 0 :=
  callCount_shellLoop_eq_zero _
    (by intro a ha; cases a <;> simp_all [isLoopApi]) env i input

theorem rsdHandshakeFree_shellLoop (env : Env) (i : Nat) (input : List Char) :
    callCount (fun a => a == ApiCall.rsdHandshakeFree) (shellLoop env i input) = 0 :=
  callCount_shellLoop_eq_zero _
    (by intro a ha; cases a <;> simp_all [isLoopApi]) env i input

theorem adapterFree_shellLoop (env : Env) (i : Nat) (input : List Char) :
    callCount (fun a => a == ApiCall.adapterFree) (shellLoop env i input) = 0 :=
  callCount_shellLoop_eq_zero _
    (by intro a ha; cases a <;> simp_all [isLoopApi]) env i input

theorem afterFirst_append_of_any (p : Ev → Bool) (xs ys : List Ev)
    (h : xs.any p = true) :
    afterFirst p (xs ++ ys) = afterFirst p xs ++ ys := by
  induction xs with
  | nil => simp at h
  | cons e xs ih =>
    by_cases he : p e = true
    · simp [afterFirst, he]
    · have he2 : p e = false := by simpa using he
      simp only [List.any_cons, he2, Bool.false_or] at h
      simp [afterFirst, he2, ih h]

/-! ## Branch characterizations of mainRun -/

/-- The setup events of a fully successful setup, in order. -/
def setupOkEvents (env : Env) (argv : List String) : List Ev :=
  [.call .initLogger 0,
    .printOut "=== Setting up CoreDeviceProxy ===\n",
    .call (.pairingFileRead (argv.getD 2 "pairing.plist")) 0,
    .call (.tcpProviderNew "DebugProxyShell") 0,
    .call .coreDeviceProxyConnect 0,
    .call .providerFree 0,
    .call .getServerRsdPort 0,
    .printOut ("Server RSD Port: " ++ toString env.rsdPort ++ "\n"),
    .printOut "\n=== Creating TCP Tunnel Adapter ===\n",
    .call .createTcpAdapter 0,
    .call (.adapterConnect env.rsdPort env.streamId) 0,
    .printOut "Successfully connected to RSD port\n",
    .printOut "\n=== Performing RSD Handshake ===\n",
    .call (.rsdHandshakeNew env.streamId) 0,
    .printOut "\n=== Setting up Debug Proxy ===\n",
    .call .debugProxyConnectRsd 0,
    .printOut "\n=== Starting Interactive Debug Shell ===\n",
    .printOut "Type GDB debugserver commands or \x27quit\x27 to exit\n\n"]

theorem mainRun_ok (env : Env) (argv : List String) (input : List Char)
    (h2 : ¬ argv.length < 2) (hip : env.ipOk = true)
    (p1 : env.pairingReadErr = 0) (p2 : env.tcpProviderErr = 0)
    (p3 : env.coreConnectErr = 0) (p4 : env.rsdPortErr = 0)
    (p5 : env.createAdapterErr = 0) (p6 : env.adapterConnectErr = 0)
    (p7 : env.handshakeErr = 0) (p8 : env.debugProxyErr = 0) :
    mainRun env argv input =
      (setupOkEvents env argv ++ shellLoop env 0 input ++ cleanupEvents, 0) := by
  simp [mainRun, setupOkEvents, h2, hip, p1, p2, p3, p4, p5, p6, p7, p8]

theorem mainRun_usage (env : Env) (argv : List String) (input : List Char)
    (h2 : argv.length < 2) :
    mainRun env argv input =
      ([.call .initLogger 0,
        .printOut ("Usage: " ++ argv.getD 0 "" ++ " <device_ip> [pairing_file]\n"),
        .printOut ("Example: " ++ argv.getD 0 "" ++ " 10.0.0.1 pairing.plist\n")], 1) := by
  simp [mainRun, h2]

theorem mainRun_badIp (env : Env) (argv : List String) (input : List Char)
    (h2 : ¬ argv.length < 2) (hip : env.ipOk = false) :
    mainRun env argv input =
      ([.call .initLogger 0,
        .printOut "=== Setting up CoreDeviceProxy ===\n",
        .printErr "Invalid IP address\n"], 1) := by
  simp [mainRun, h2, hip]

theorem mainRun_fail1 (env : Env) (argv : List String) (input : List Char)
    (h2 : ¬ argv.length < 2) (hip : env.ipOk = true)
    (p1 : env.pairingReadErr ≠ 0) :
    mainRun env argv input =
      ([.call .initLogger 0,
        .printOut "=== Setting up CoreDeviceProxy ===\n",
        .call (.pairingFileRead (argv.getD 2 "pairing.plist")) env.pairingReadErr,
        .printErr ("Failed to read pairing file: " ++
          toString env.pairingReadErr ++ "\n")], 1) := by
  simp [mainRun, h2, hip, p1]

theorem mainRun_fail2 (env : Env) (argv : List String) (input : List Char)
    (h2 : ¬ argv.length < 2) (hip : env.ipOk = true)
    (p1 : env.pairingReadErr = 0) (p2 : env.tcpProviderErr ≠ 0) :
    mainRun env argv input =
      ([.call .initLogger 0,
        .printOut "=== Setting up CoreDeviceProxy ===\n",
        .call (.pairingFileRead (argv.getD 2 "pairing.plist")) 0,
        .call (.tcpProviderNew "DebugProxyShell") env.tcpProviderErr,
        .printErr ("Failed to create TCP provider: " ++
          toString env.tcpProviderErr ++ "\n"),
        .call .pairingFileFree 0], 1) := by
  simp [mainRun, h2, hip, p1, p2]

theorem mainRun_fail3 (env : Env) (argv : List String) (input : List Char)
    (h2 : ¬ argv.length < 2) (hip : env.ipOk = true)
    (p1 : env.pairingReadErr = 0) (p2 : env.tcpProviderErr = 0)
    (p3 : env.coreConnectErr ≠ 0) :
    mainRun env argv input =
      ([.call .initLogger 0,
        .printOut "=== Setting up CoreDeviceProxy ===\n",
        .call (.pairingFileRead (argv.getD 2 "pairing.plist")) 0,
        .call (.tcpProviderNew "DebugProxyShell") 0,
        .call .coreDeviceProxyConnect env.coreConnectErr,
        .printErr ("Failed to connect to CoreDeviceProxy: " ++
          toString env.coreConnectErr ++ "\n"),
        .call .providerFree 0], 1) := by
  simp [mainRun, h2, hip, p1, p2, p3]

theorem mainRun_fail4 (env : Env) (argv : List String) (input : List Char)
    (h2 : ¬ argv.length < 2) (hip : env.ipOk = true)
    (p1 : env.pairingReadErr = 0) (p2 : env.tcpProviderErr = 0)
    (p3 : env.coreConnectErr = 0) (p4 : env.rsdPortErr ≠ 0) :
    mainRun env argv input =
      ([.call .initLogger 0,
        .printOut "=== Setting up CoreDeviceProxy ===\n",
        .call (.pairingFileRead (argv.getD 2 "pairing.plist")) 0,
        .call (.tcpProviderNew "DebugProxyShell") 0,
        .call .coreDeviceProxyConnect 0,
        .call .providerFree 0,
        .call .getServerRsdPort env.rsdPortErr,
        .printErr ("Failed to get server RSD port: " ++
          toString env.rsdPortErr ++ "\n"),
        .call .coreDeviceProxyFree 0], 1) := by
  simp [mainRun, h2, hip, p1, p2, p3, p4]

theorem mainRun_fail5 (env : Env) (argv : List String) (input : List Char)
    (h2 : ¬ argv.length < 2) (hip : env.ipOk = true)
    (p1 : env.pairingReadErr = 0) (p2 : env.tcpProviderErr = 0)
    (p3 : env.coreConnectErr = 0) (p4 : env.rsdPortErr = 0)
    (p5 : env.createAdapterErr ≠ 0) :
    mainRun env argv input =
      ([.call .initLogger 0,
        .printOut "=== Setting up CoreDeviceProxy ===\n",
        .call (.pairingFileRead (argv.getD 2 "pairing.plist")) 0,
        .call (.tcpProviderNew "DebugProxyShell") 0,
        .call .coreDeviceProxyConnect 0,
        .call .providerFree 0,
        .call .getServerRsdPort 0,
        .printOut ("Server RSD Port: " ++ toString env.rsdPort ++ "\n"),
        .printOut "\n=== Creating TCP Tunnel Adapter ===\n",
        .call .createTcpAdapter env.createAdapterErr,
        .printErr ("Failed to create TCP adapter: " ++
          toString env.createAdapterErr ++ "\n"),
        .call .coreDeviceProxyFree 0], 1) := by
  simp [mainRun, h2, hip, p1, p2, p3, p4, p5]

theorem mainRun_fail6 (env : Env) (argv : List String) (input : List Char)
    (h2 : ¬ argv.length < 2) (hip : env.ipOk = true)
    (p1 : env.pairingReadErr = 0) (p2 : env.tcpProviderErr = 0)
    (p3 : env.coreConnectErr = 0) (p4 : env.rsdPortErr = 0)
    (p5 : env.createAdapterErr = 0) (p6 : env.adapterConnectErr ≠ 0) :
    mainRun env argv input =
      ([.call .initLogger 0,
        .printOut "=== Setting up CoreDeviceProxy ===\n",
        .call (.pairingFileRead (argv.getD 2 "pairing.plist")) 0,
        .call (.tcpProviderNew "DebugProxyShell") 0,
        .call .coreDeviceProxyConnect 0,
        .call .providerFree 0,
        .call .getServerRsdPort 0,
        .printOut ("Server RSD Port: " ++ toString env.rsdPort ++ "\n"),
        .printOut "\n=== Creating TCP Tunnel Adapter ===\n",
        .call .createTcpAdapter 0,
        .call (.adapterConnect env.rsdPort env.streamId) env.adapterConnectErr,
        .printErr ("Failed to connect to RSD port: " ++
          toString env.adapterConnectErr ++ "\n"),
        .call .adapterFree 0], 1) := by
  simp [mainRun, h2, hip, p1, p2, p3, p4, p5, p6]

theorem mainRun_fail7 (env : Env) (argv : List String) (input : List Char)
    (h2 : ¬ argv.length < 2) (hip : env.ipOk = true)
    (p1 : env.pairingReadErr = 0) (p2 : env.tcpProviderErr = 0)
    (p3 : env.coreConnectErr = 0) (p4 : env.rsdPortErr = 0)
    (p5 : env.createAdapterErr = 0) (p6 : env.adapterConnectErr = 0)
    (p7 : env.handshakeErr ≠ 0) :
    mainRun env argv input =
      ([.call .initLogger 0,
        .printOut "=== Setting up CoreDeviceProxy ===\n",
        .call (.pairingFileRead (argv.getD 2 "pairing.plist")) 0,
        .call (.tcpProviderNew "DebugProxyShell") 0,
        .call .coreDeviceProxyConnect 0,
        .call .providerFree 0,
        .call .getServerRsdPort 0,
        .printOut ("Server RSD Port: " ++ toString env.rsdPort ++ "\n"),
        .printOut "\n=== Creating TCP Tunnel Adapter ===\n",
        .call .createTcpAdapter 0,
        .call (.adapterConnect env.rsdPort env.streamId) 0,
        .printOut "Successfully connected to RSD port\n",
        .printOut "\n=== Performing RSD Handshake ===\n",
        .call (.rsdHandshakeNew env.streamId) env.handshakeErr,
        .printErr ("Failed to perform RSD handshake: " ++
          toString env.handshakeErr ++ "\n"),
        .call (.adapterClose env.streamId) 0,
        .call .adapterFree 0], 1) := by
  simp [mainRun, h2, hip, p1, p2, p3, p4, p5, p6, p7]

theorem mainRun_fail8 (env : Env) (argv : List String) (input : List Char)
    (h2 : ¬ argv.length < 2) (hip : env.ipOk = true)
    (p1 : env.pairingReadErr = 0) (p2 : env.tcpProviderErr = 0)
    (p3 : env.coreConnectErr = 0) (p4 : env.rsdPortErr = 0)
    (p5 : env.createAdapterErr = 0) (p6 : env.adapterConnectErr = 0)
    (p7 : env.handshakeErr = 0) (p8 : env.debugProxyErr ≠ 0) :
    mainRun env argv input =
      ([.call .initLogger 0,
        .printOut "=== Setting up CoreDeviceProxy ===\n",
        .call (.pairingFileRead (argv.getD 2 "pairing.plist")) 0,
        .call (.tcpProviderNew "DebugProxyShell") 0,
        .call .coreDeviceProxyConnect 0,
        .call .providerFree 0,
        .call .getServerRsdPort 0,
        .printOut ("Server RSD Port: " ++ toString env.rsdPort ++ "\n"),
        .printOut "\n=== Creating TCP Tunnel Adapter ===\n",
        .call .createTcpAdapter 0,
        .call (.adapterConnect env.rsdPort env.streamId) 0,
        .printOut "Successfully connected to RSD port\n",
        .printOut "\n=== Performing RSD Handshake ===\n",
        .call (.rsdHandshakeNew env.streamId) 0,
        .printOut "\n=== Setting up Debug Proxy ===\n",
        .call .debugProxyConnectRsd env.debugProxyErr,
        .printErr ("Failed to create debug proxy client: " ++
          toString env.debugProxyErr ++ "\n"),
        .call .rsdHandshakeFree 0,
        .call .adapterFree 0], 1) := by
  simp [mainRun, h2, hip, p1, p2, p3, p4, p5, p6, p7, p8]

/-! ## Drain-loop characterization -/

/-- The stdout lines of the drain loop are exactly the non-NULL responses
preceding the first stopping result, in order (each with the newline appended
by `printf("%s\n", ...)`). -/
theorem drainEvents_prints (rs : List (Nat × Option String)) :
    drainedPrints (drainEvents rs) =
      (rs.take (rs.findIdx drainStop)).filterMap
        (fun p => p.2.map (fun s => s ++ "\n")) := by
  induction rs with
  | nil => simp [drainEvents, drainedPrints]
  | cons p rest ih =>
    obtain ⟨e, r⟩ := p
    by_cases he : e = 0
    · subst he
      cases r with
      | none => simp [drainEvents, drainedPrints, List.findIdx_cons, drainStop]
      | some s =>
        have hstop : drainStop (0, some s) = false := by simp [drainStop]
        simp [drainEvents, drainedPrints, List.findIdx_cons, hstop]
        exact ih
    · have hstop : drainStop (e, r) = true := by simp [drainStop, he]
      simp [drainEvents, drainedPrints, he, List.findIdx_cons, hstop]

/-- The drain loop calls `debug_proxy_read_response` exactly once more than
the number of responses it prints: one call per printed response, plus the
final call whose result stops the loop. -/
theorem drainEvents_reads (rs : List (Nat × Option String)) :
    callCount (fun a => a == ApiCall.readResponse) (drainEvents rs) =
      rs.findIdx drainStop + 1 := by
  induction rs with
  | nil => simp [drainEvents, callCount]
  | cons p rest ih =>
    obtain ⟨e, r⟩ := p
    by_cases he : e = 0
    · subst he
      cases r with
      | none => simp [drainEvents, callCount, List.findIdx_cons, drainStop]
      | some s =>
        have hstop : drainStop (0, some s) = false := by simp [drainStop]
        simp only [drainEvents, List.findIdx_cons, hstop, cond_false]
        simp [callCount, isSendApi, ih]
        omega
    · have hstop : drainStop (e, r) = true := by simp [drainStop, he]
      simp [drainEvents, callCount, he, List.findIdx_cons, hstop]

/-- A successful send is followed, within the same iteration, by the response
print and then the drain loop. -/
theorem iterEvents_success (env : Env) (i : Nat) (line : List Char)
    (hc : env.cmdNewOk i = true) (hs : (env.sendRes i).1 = 0) :
    iterEvents env i line =
      [Ev.call (ApiCall.commandNew
          ((parseCommandLine line).1.map (fun cs => String.mk cs))
          ((parseCommandLine line).2.map (fun cs => String.mk cs))) 0,
        Ev.call (ApiCall.sendCommand
          ((parseCommandLine line).1.map (fun cs => String.mk cs))
          ((parseCommandLine line).2.map (fun cs => String.mk cs))) 0,
        Ev.call ApiCall.commandFree 0] ++
        respEvents (env.sendRes i).2 ++ drainEvents (env.readRes i) := by
  unfold iterEvents
  simp [hc, hs]

/-! ## Parser characterization -/

theorem strtokList_nil : strtokList [] = [] := rfl

/-- The command value built from a line whose token list is `t :: ts`:
name `t`, arguments the first 15 tokens of `ts`. -/
theorem builtCommand_eq (line t : List Char) (ts : List (List Char))
    (h : strtokList line = t :: ts) :
    builtCommand line =
      some ⟨String.mk t, (ts.take 15).map (fun cs => String.mk cs)⟩ := by
  rw [strtokList_eq] at h
  unfold builtCommand parseCommandLine debugserver_command_new
  cases h1 : strtok1 line with
  | mk fst rest =>
    rw [h1] at h
    cases fst with
    | none => simp at h
    | some t0 =>
      simp only at h
      have ht : t0 = t := (List.cons_eq_cons.mp h).1
      have hts : strtokList rest = ts := (List.cons_eq_cons.mp h).2
      subst ht
      cases rest with
      | nil =>
        rw [← hts, strtokList_nil]
        simp [h1]
      | cons c rs =>
        simp only [h1]
        rw [argTokLoop_eq_take, hts]
        simp [List.take_length]

/-- A command is built only from a line with at least one token. -/
theorem builtCommand_some {line : List Char} {c : DebugserverCommand}
    (h : builtCommand line = some c) :
    ∃ t ts, strtokList line = t :: ts := by
  unfold builtCommand parseCommandLine debugserver_command_new at h
  cases h1 : strtok1 line with
  | mk fst rest =>
    rw [h1] at h
    cases fst with
    | none =>
      exfalso
      cases rest <;> simp at h
    | some t =>
      refine ⟨t, strtokList rest, ?_⟩
      rw [strtokList_eq, h1]

/-- A sixteen-argument command line, used as a concrete input. -/
def lineSixteen : List Char :=
  "c a b d e f g h i j k l m n o p q".toList

end DebugProxy

namespace DebugProxy

/-- Claim C4 (counterexample): the claim states that ALL tokens after the
name become the argument list; on a line with 16 argument tokens the built
command keeps only the first 15, so the claim fails at this input.  The
concrete line has 17 tokens (name plus 16 arguments), yet the built
argument list is not the full 16-token tail. -/
theorem claim4_counterexample :
    (strtokList lineSixteen).length = 17 ∧
    (builtCommand lineSixteen).map DebugserverCommand.arguments ≠
      some (((strtokList lineSixteen).drop 1).map (fun cs => String.mk cs)) := by
  constructor
  · decide
  · decide

/-- Claim C4 (amended): for every input line with at least one non-space
token, the command built by the driver and handed to
`debugserver_command_new` has the first space-delimited token as its name
and the subsequent space-delimited tokens, up to the first 15 of them, in
their original left-to-right order, as its argument list; in particular a
line with nothing after the name yields an argument count of 0. -/
theorem claim4_theorem (line t : List Char) (ts : List (List Char))
    (h : strtokList line = t :: ts) :
    builtCommand line =
      some ⟨String.mk t, (ts.take 15).map (fun cs => String.mk cs)⟩ :=
  builtCommand_eq line t ts h

theorem claim4_witness :
    strtokList "c a".toList = ['c'] :: [['a']] ∧
    builtCommand "c a".toList =
      some ⟨String.mk ['c'], ([['a']].take 15).map (fun cs => String.mk cs)⟩ :=
  ⟨by decide, claim4_theorem "c a".toList ['c'] [['a']] (by decide)⟩

/-- Claim C8: `debugserver_command_new` is never invoked with more than 15
arguments; the argument list of every built command is exactly the first 15
space-delimited tokens following the name, later tokens being discarded. -/
theorem claim8_theorem (line : List Char) (c : DebugserverCommand)
    (h : builtCommand line = some c) :
    c.arguments.length ≤ 15 ∧
    c.arguments = (((strtokList line).drop 1).take 15).map (fun cs => String.mk cs) := by
  obtain ⟨t, ts, hts⟩ := builtCommand_some h
  have heq := builtCommand_eq line t ts hts
  rw [heq] at h
  have hc : c = ⟨String.mk t, (ts.take 15).map (fun cs => String.mk cs)⟩ :=
    (Option.some.injEq _ _).mp h.symm
  subst hc
  constructor
  · simp only [List.length_map]
    exact le_trans (List.length_take_le 15 ts) (by omega)
  · rw [hts]
    simp

theorem claim8_witness :
    builtCommand lineSixteen =
      some (⟨"c", ["a", "b", "d", "e", "f", "g", "h", "i", "j", "k", "l",
        "m", "n", "o", "p"]⟩ : DebugserverCommand) ∧
    ((⟨"c", ["a", "b", "d", "e", "f", "g", "h", "i", "j", "k", "l",
        "m", "n", "o", "p"]⟩ : DebugserverCommand).arguments.length ≤ 15 ∧
      (⟨"c", ["a", "b", "d", "e", "f", "g", "h", "i", "j", "k", "l",
        "m", "n", "o", "p"]⟩ : DebugserverCommand).arguments =
        (((strtokList lineSixteen).drop 1).take 15).map (fun cs => String.mk cs)) :=
  ⟨by decide, claim8_theorem lineSixteen _ (by decide)⟩

/-- Claim C2: after a successfully sent command the driver repeatedly calls
`debug_proxy_read_response`, printing every non-NULL response in the order
returned; the drain makes exactly one read call per printed response plus the
single stopping call (the first returning a non-success code or a NULL
response), and the drain runs inside the iteration, before the next prompt
(the loop appends the drain events before recursing, see `shellLoop_eq`). -/
theorem claim2_theorem :
    (∀ rs : List (Nat × Option String),
      drainedPrints (drainEvents rs) =
        (rs.take (rs.findIdx drainStop)).filterMap
          (fun p => p.2.map (fun s => s ++ "\n")) ∧
      callCount (fun a => a == ApiCall.readResponse) (drainEvents rs) =
        rs.findIdx drainStop + 1) ∧
    (∀ (env : Env) (i : Nat) (line : List Char),
      env.cmdNewOk i = true → (env.sendRes i).1 = 0 →
      iterEvents env i line =
        [Ev.call (ApiCall.commandNew
            ((parseCommandLine line).1.map (fun cs => String.mk cs))
            ((parseCommandLine line).2.map (fun cs => String.mk cs))) 0,
          Ev.call (ApiCall.sendCommand
            ((parseCommandLine line).1.map (fun cs => String.mk cs))
            ((parseCommandLine line).2.map (fun cs => String.mk cs))) 0,
          Ev.call ApiCall.commandFree 0] ++
          respEvents (env.sendRes i).2 ++ drainEvents (env.readRes i)) :=
  ⟨fun rs => ⟨drainEvents_prints rs, drainEvents_reads rs⟩,
    fun env i line hc hs => iterEvents_success env i line hc hs⟩

theorem claim2_witness :
    envBase.cmdNewOk 0 = true ∧ (envBase.sendRes 0).1 = 0 ∧
    iterEvents envBase 0 "c".toList =
      [Ev.call (ApiCall.commandNew
          ((parseCommandLine "c".toList).1.map (fun cs => String.mk cs))
          ((parseCommandLine "c".toList).2.map (fun cs => String.mk cs))) 0,
        Ev.call (ApiCall.sendCommand
          ((parseCommandLine "c".toList).1.map (fun cs => String.mk cs))
          ((parseCommandLine "c".toList).2.map (fun cs => String.mk cs))) 0,
        Ev.call ApiCall.commandFree 0] ++
        respEvents (envBase.sendRes 0).2 ++ drainEvents (envBase.readRes 0) :=
  ⟨rfl, rfl, claim2_theorem.2 envBase 0 "c".toList rfl rfl⟩

/-- Claim C10: every command line processed by the loop fits the 1024-byte
buffer: the `fgets` model reads at most 1023 characters, the stripped line
(what the loop parses) has length at most `MAX_COMMAND_LENGTH - 1 = 1023`,
and it contains no newline (the trailing newline, if present, is removed
before parsing). -/
theorem claim10_theorem (input : List Char) :
    (fgetsAux 1023 input).1.length ≤ 1023 ∧
    (stripNewline (fgetsAux 1023 input).1).length ≤ 1023 ∧
    '\n' ∉ stripNewline (fgetsAux 1023 input).1 := by
  refine ⟨fgetsAux_fst_length 1023 input, ?_, ?_⟩
  · exact le_trans (List.Sublist.length_le (List.takeWhile_sublist _))
      (fgetsAux_fst_length 1023 input)
  · intro hmem
    have := List.mem_takeWhile_imp hmem
    simp at this

/-- Claim C1: under valid arguments and a valid IP, the eight setup stages
(pairing-file read, TCP provider creation, CoreDeviceProxy connect,
discovery-port query, TCP-adapter creation, stream connect, RSD handshake,
debug-proxy creation) are invoked in exactly this order up to and including
the first stage returning a non-success code, no later stage is ever invoked,
and if any stage fails main returns 1. -/
theorem claim1_theorem (env : Env) (argv : List String) (input : List Char)
    (hargc : 2 ≤ argv.length) (hip : env.ipOk = true) :
    stageCalls (mainRun env argv input).1 =
      (List.range 8).take ((stageCodes env).findIdx (fun e => e != 0) + 1) ∧
    ((stageCodes env).findIdx (fun e => e != 0) < 8 →
      (mainRun env argv input).2 = 1) := by
  have h2 : ¬ argv.length < 2 := by omega
  by_cases p1 : env.pairingReadErr = 0
  · by_cases p2 : env.tcpProviderErr = 0
    · by_cases p3 : env.coreConnectErr = 0
      · by_cases p4 : env.rsdPortErr = 0
        · by_cases p5 : env.createAdapterErr = 0
          · by_cases p6 : env.adapterConnectErr = 0
            · by_cases p7 : env.handshakeErr = 0
              · by_cases p8 : env.debugProxyErr = 0
                · rw [mainRun_ok env argv input h2 hip p1 p2 p3 p4 p5 p6 p7 p8]
                  have hidx : (stageCodes env).findIdx (fun e => e != 0) = 8 := by
                    simp [stageCodes, List.findIdx_cons, p1, p2, p3, p4, p5, p6, p7, p8]
                  rw [hidx]
                  refine ⟨?_, fun hlt => by omega⟩
                  have hloop := stageCalls_shellLoop env 0 input
                  simp only [stageCalls] at hloop ⊢
                  simp only [List.filterMap_append, hloop]
                  simp [setupOkEvents, cleanupEvents, stageIdx]
                  decide
                · rw [mainRun_fail8 env argv input h2 hip p1 p2 p3 p4 p5 p6 p7 p8]
                  have hidx : (stageCodes env).findIdx (fun e => e != 0) = 7 := by
                    have pb : (env.debugProxyErr != 0) = true := by simpa using p8
                    simp [stageCodes, List.findIdx_cons, p1, p2, p3, p4, p5, p6, p7, pb]
                  rw [hidx]
                  refine ⟨?_, fun hlt => rfl⟩
                  simp [stageCalls, stageIdx]
                  decide
              · rw [mainRun_fail7 env argv input h2 hip p1 p2 p3 p4 p5 p6 p7]
                have hidx : (stageCodes env).findIdx (fun e => e != 0) = 6 := by
                  have pb : (env.handshakeErr != 0) = true := by simpa using p7
                  simp [stageCodes, List.findIdx_cons, p1, p2, p3, p4, p5, p6, pb]
                rw [hidx]
                refine ⟨?_, fun hlt => rfl⟩
                simp [stageCalls, stageIdx]
                decide
            · rw [mainRun_fail6 env argv input h2 hip p1 p2 p3 p4 p5 p6]
              have hidx : (stageCodes env).findIdx (fun e => e != 0) = 5 := by
                have pb : (env.adapterConnectErr != 0) = true := by simpa using p6
                simp [stageCodes, List.findIdx_cons, p1, p2, p3, p4, p5, pb]
              rw [hidx]
              refine ⟨?_, fun hlt => rfl⟩
              simp [stageCalls, stageIdx]
              decide
          · rw [mainRun_fail5 env argv input h2 hip p1 p2 p3 p4 p5]
            have hidx : (stageCodes env).findIdx (fun e => e != 0) = 4 := by
              have pb : (env.createAdapterErr != 0) = true := by simpa using p5
              simp [stageCodes, List.findIdx_cons, p1, p2, p3, p4, pb]
            rw [hidx]
            refine ⟨?_, fun hlt => rfl⟩
            simp [stageCalls, stageIdx]
            decide
        · rw [mainRun_fail4 env argv input h2 hip p1 p2 p3 p4]
          have hidx : (stageCodes env).findIdx (fun e => e != 0) = 3 := by
            have pb : (env.rsdPortErr != 0) = true := by simpa using p4
            simp [stageCodes, List.findIdx_cons, p1, p2, p3, pb]
          rw [hidx]
          refine ⟨?_, fun hlt => rfl⟩
          simp [stageCalls, stageIdx]
          decide
      · rw [mainRun_fail3 env argv input h2 hip p1 p2 p3]
        have hidx : (stageCodes env).findIdx (fun e => e != 0) = 2 := by
          have pb : (env.coreConnectErr != 0) = true := by simpa using p3
          simp [stageCodes, List.findIdx_cons, p1, p2, pb]
        rw [hidx]
        refine ⟨?_, fun hlt => rfl⟩
        simp [stageCalls, stageIdx]
        decide
    · rw [mainRun_fail2 env argv input h2 hip p1 p2]
      have hidx : (stageCodes env).findIdx (fun e => e != 0) = 1 := by
        have pb : (env.tcpProviderErr != 0) = true := by simpa using p2
        simp [stageCodes, List.findIdx_cons, p1, pb]
      rw [hidx]
      refine ⟨?_, fun hlt => rfl⟩
      simp [stageCalls, stageIdx]
      decide
  · rw [mainRun_fail1 env argv input h2 hip p1]
    have hidx : (stageCodes env).findIdx (fun e => e != 0) = 0 := by
      have pb : (env.pairingReadErr != 0) = true := by simpa using p1
      simp [stageCodes, List.findIdx_cons, pb]
    rw [hidx]
    refine ⟨?_, fun hlt => rfl⟩
    simp [stageCalls, stageIdx]
    decide

theorem claim1_witness :
    2 ≤ (["prog", "1.2.3.4"] : List String).length ∧ envBase.ipOk = true ∧
    (stageCalls (mainRun envBase ["prog", "1.2.3.4"] []).1 =
      (List.range 8).take ((stageCodes envBase).findIdx (fun e => e != 0) + 1) ∧
    ((stageCodes envBase).findIdx (fun e => e != 0) < 8 →
      (mainRun envBase ["prog", "1.2.3.4"] []).2 = 1)) :=
  ⟨by decide, rfl, claim1_theorem envBase ["prog", "1.2.3.4"] [] (by decide) rfl⟩


/-- Claim C3: every `adapter_connect` event in any run of main uses exactly
the port returned by `core_device_proxy_get_server_rsd_port` and yields the
adapter stream, every `rsd_handshake_new` event receives exactly that stream,
and each of the two calls happens at most once — no other port is ever used
to open the service-discovery stream. -/
theorem claim3_theorem (env : Env) (argv : List String) (input : List Char) :
    (mainRun env argv input).1.all (portConsistent env) = true ∧
    callCount isAdapterConnectApi (mainRun env argv input).1 ≤ 1 ∧
    callCount isRsdHandshakeNewApi (mainRun env argv input).1 ≤ 1 := by
  by_cases h2 : argv.length < 2
  · rw [mainRun_usage env argv input h2]
    exact ⟨by simp [portConsistent], by simp [callCount, isAdapterConnectApi],
      by simp [callCount, isRsdHandshakeNewApi]⟩
  · by_cases hip : env.ipOk = true
    · by_cases p1 : env.pairingReadErr = 0
      · by_cases p2 : env.tcpProviderErr = 0
        · by_cases p3 : env.coreConnectErr = 0
          · by_cases p4 : env.rsdPortErr = 0
            · by_cases p5 : env.createAdapterErr = 0
              · by_cases p6 : env.adapterConnectErr = 0
                · by_cases p7 : env.handshakeErr = 0
                  · by_cases p8 : env.debugProxyErr = 0
                    · rw [mainRun_ok env argv input h2 hip p1 p2 p3 p4 p5 p6 p7 p8]
                      refine ⟨?_, ?_, ?_⟩
                      · simp [List.all_append, setupOkEvents, cleanupEvents,
                          portConsistent, portConsistent_shellLoop env env 0 input]
                      · rw [callCount_append, callCount_append,
                          adapterConnect_shellLoop env 0 input]
                        simp [callCount, setupOkEvents, cleanupEvents,
                          isAdapterConnectApi]
                      · rw [callCount_append, callCount_append,
                          rsdHandshakeNew_shellLoop env 0 input]
                        simp [callCount, setupOkEvents, cleanupEvents,
                          isRsdHandshakeNewApi]
                    · rw [mainRun_fail8 env argv input h2 hip p1 p2 p3 p4 p5 p6 p7 p8]
                      exact ⟨by simp [portConsistent],
                        by simp [callCount, isAdapterConnectApi],
                        by simp [callCount, isRsdHandshakeNewApi]⟩
                  · rw [mainRun_fail7 env argv input h2 hip p1 p2 p3 p4 p5 p6 p7]
                    exact ⟨by simp [portConsistent],
                      by simp [callCount, isAdapterConnectApi],
                      by simp [callCount, isRsdHandshakeNewApi]⟩
                · rw [mainRun_fail6 env argv input h2 hip p1 p2 p3 p4 p5 p6]
                  exact ⟨by simp [portConsistent],
                    by simp [callCount, isAdapterConnectApi],
                    by simp [callCount, isRsdHandshakeNewApi]⟩
              · rw [mainRun_fail5 env argv input h2 hip p1 p2 p3 p4 p5]
                exact ⟨by simp [portConsistent],
                  by simp [callCount, isAdapterConnectApi],
                  by simp [callCount, isRsdHandshakeNewApi]⟩
            · rw [mainRun_fail4 env argv input h2 hip p1 p2 p3 p4]
              exact ⟨by simp [portConsistent],
                by simp [callCount, isAdapterConnectApi],
                by simp [callCount, isRsdHandshakeNewApi]⟩
          · rw [mainRun_fail3 env argv input h2 hip p1 p2 p3]
            exact ⟨by simp [portConsistent],
              by simp [callCount, isAdapterConnectApi],
              by simp [callCount, isRsdHandshakeNewApi]⟩
        · rw [mainRun_fail2 env argv input h2 hip p1 p2]
          exact ⟨by simp [portConsistent],
            by simp [callCount, isAdapterConnectApi],
            by simp [callCount, isRsdHandshakeNewApi]⟩
      · rw [mainRun_fail1 env argv input h2 hip p1]
        exact ⟨by simp [portConsistent],
          by simp [callCount, isAdapterConnectApi],
          by simp [callCount, isRsdHandshakeNewApi]⟩
    · have hip2 : env.ipOk = false := by simpa using hip
      rw [mainRun_badIp env argv input h2 hip2]
      exact ⟨by simp [portConsistent],
        by simp [callCount, isAdapterConnectApi],
        by simp [callCount, isRsdHandshakeNewApi]⟩

/-- Claim C7: after a successful `core_device_proxy_create_tcp_adapter`
call, no operation on the CoreDeviceProxy handle (connect, port query,
adapter creation or free) is ever invoked again for the remainder of the
execution. -/
theorem claim7_theorem (env : Env) (argv : List String) (input : List Char) :
    ((afterFirst isCreateAdapterOk (mainRun env argv input).1).any coreDeviceEv) = false := by
  by_cases h2 : argv.length < 2
  · rw [mainRun_usage env argv input h2]
    simp [afterFirst, isCreateAdapterOk]
  · by_cases hip : env.ipOk = true
    · by_cases p1 : env.pairingReadErr = 0
      · by_cases p2 : env.tcpProviderErr = 0
        · by_cases p3 : env.coreConnectErr = 0
          · by_cases p4 : env.rsdPortErr = 0
            · by_cases p5 : env.createAdapterErr = 0
              · by_cases p6 : env.adapterConnectErr = 0
                · by_cases p7 : env.handshakeErr = 0
                  · by_cases p8 : env.debugProxyErr = 0
                    · rw [mainRun_ok env argv input h2 hip p1 p2 p3 p4 p5 p6 p7 p8]
                      have hsetup : (setupOkEvents env argv).any isCreateAdapterOk = true := by
                        simp [setupOkEvents, isCreateAdapterOk]
                      rw [afterFirst_append_of_any _ _ _ (by simp [List.any_append, hsetup]),
                        afterFirst_append_of_any _ _ _ hsetup]
                      simp only [List.any_append, Bool.or_eq_false_iff]
                      refine ⟨⟨?_, ?_⟩, ?_⟩
                      · simp [setupOkEvents, afterFirst, isCreateAdapterOk,
                          coreDeviceEv, isCoreDeviceOp]
                      · exact coreDeviceEv_shellLoop env 0 input
                      · simp [cleanupEvents, coreDeviceEv, isCoreDeviceOp]
                    · rw [mainRun_fail8 env argv input h2 hip p1 p2 p3 p4 p5 p6 p7 p8]
                      simp [afterFirst, isCreateAdapterOk, coreDeviceEv, isCoreDeviceOp]
                  · rw [mainRun_fail7 env argv input h2 hip p1 p2 p3 p4 p5 p6 p7]
                    simp [afterFirst, isCreateAdapterOk, coreDeviceEv, isCoreDeviceOp]
                · rw [mainRun_fail6 env argv input h2 hip p1 p2 p3 p4 p5 p6]
                  simp [afterFirst, isCreateAdapterOk, coreDeviceEv, isCoreDeviceOp]
              · rw [mainRun_fail5 env argv input h2 hip p1 p2 p3 p4 p5]
                have pb : (env.createAdapterErr == 0) = false := by simpa using p5
                simp [afterFirst, isCreateAdapterOk, pb]
            · rw [mainRun_fail4 env argv input h2 hip p1 p2 p3 p4]
              simp [afterFirst, isCreateAdapterOk]
          · rw [mainRun_fail3 env argv input h2 hip p1 p2 p3]
            simp [afterFirst, isCreateAdapterOk]
        · rw [mainRun_fail2 env argv input h2 hip p1 p2]
          simp [afterFirst, isCreateAdapterOk]
      · rw [mainRun_fail1 env argv input h2 hip p1]
        simp [afterFirst, isCreateAdapterOk]
    · have hip2 : env.ipOk = false := by simpa using hip
      rw [mainRun_badIp env argv input h2 hip2]
      simp [afterFirst, isCreateAdapterOk]

/-! ## Diagnostics of failing calls -/

theorem fd_append (skip : ApiCall → Bool) (xs ys : List Ev)
    (hx : failuresDiagnosed skip xs = true)
    (hy : failuresDiagnosed skip ys = true) :
    failuresDiagnosed skip (xs ++ ys) = true := by
  induction xs with
  | nil => simpa using hy
  | cons e xs ih =>
    cases e with
    | call a r =>
      simp only [failuresDiagnosed, Bool.and_eq_true, Bool.or_eq_true,
        List.cons_append, List.any_append] at hx ⊢
      obtain ⟨h1, h2⟩ := hx
      refine ⟨?_, ih h2⟩
      rcases h1 with (h | h) | h
      · exact Or.inl (Or.inl h)
      · exact Or.inl (Or.inr h)
      · exact Or.inr (by simp [List.any_append, h])
    | printOut s =>
      simp only [failuresDiagnosed, List.cons_append] at hx ⊢
      exact ih hx
    | printErr s =>
      simp only [failuresDiagnosed, List.cons_append] at hx ⊢
      exact ih hx

theorem fd_drainEvents (rs : List (Nat × Option String)) :
    failuresDiagnosed skipRead (drainEvents rs) = true := by
  induction rs with
  | nil => simp [drainEvents, failuresDiagnosed, skipRead]
  | cons p rest ih =>
    obtain ⟨e, r⟩ := p
    by_cases he : e = 0
    · subst he
      cases r with
      | none => simp [drainEvents, failuresDiagnosed, skipRead]
      | some s => simp [drainEvents, failuresDiagnosed, skipRead, ih]
    · simp [drainEvents, he, failuresDiagnosed, skipRead]

theorem fd_respEvents (r : Option String) :
    failuresDiagnosed skipRead (respEvents r) = true := by
  cases r <;> simp [respEvents, failuresDiagnosed]

theorem fd_iterEvents (env : Env) (i : Nat) (line : List Char) :
    failuresDiagnosed skipRead (iterEvents env i line) = true := by
  unfold iterEvents
  by_cases hc : env.cmdNewOk i
  · simp only [hc, if_true]
    by_cases hs : (env.sendRes i).1 ≠ 0
    · simp [hs, failuresDiagnosed, isErrPrint]
    · have hs0 : (env.sendRes i).1 = 0 := by simpa using hs
      simp only [hs, if_false, Bool.false_eq_true, if_neg, not_false_iff]
      refine fd_append _ _ _ (fd_append _ _ _ ?_ (fd_respEvents _)) (fd_drainEvents _)
      simp [failuresDiagnosed, hs0]
  · simp [hc, failuresDiagnosed]

theorem fd_shellLoop_aux : ∀ (n : Nat) (env : Env) (i : Nat) (input : List Char),
    input.length ≤ n → failuresDiagnosed skipRead (shellLoop env i input) = true := by
  intro n
  induction n with
  | zero =>
    intro env i input h
    have : input = [] := List.length_eq_zero.mp (Nat.le_zero.mp h)
    subst this
    rw [shellLoop_eq]
    simp [failuresDiagnosed]
  | succ n ih =>
    intro env i input h
    rw [shellLoop_eq]
    cases input with
    | nil => simp [failuresDiagnosed]
    | cons c rest =>
      have hlt : (fgetsAux 1023 (c :: rest)).2.length < (c :: rest).length :=
        fgetsAux_snd_length_lt 1022 c rest
      by_cases hq : stripNewline (fgetsAux 1023 (c :: rest)).1 = "quit".toList
      · simp [hq, failuresDiagnosed]
      · simp only [if_neg hq, failuresDiagnosed]
        exact fd_append _ _ _ (fd_iterEvents env i _)
          (ih env (i + 1) _ (by simp only [List.length_cons] at hlt h; omega))

theorem fd_shellLoop (env : Env) (i : Nat) (input : List Char) :
    failuresDiagnosed skipRead (shellLoop env i input) = true :=
  fd_shellLoop_aux input.length env i input le_rfl

/-- An environment in which everything succeeds except that the first
`debug_proxy_read_response` call of each iteration fails with code 7. -/
def envReadFail : Env :=
  { envBase with
    sendRes := fun _ => (0, some "ok"),
    readRes := fun _ => [(7, none)] }

/-- Claim C5 (counterexample): the claim states that EVERY API call
returning a non-success code produces a user-visible diagnostic.  In this
run every setup call succeeds, the single command is sent successfully, and
`debug_proxy_read_response` then fails with code 7: the driver breaks out of
the drain loop silently, and the whole trace contains no stderr diagnostic
at all, so the claim fails. -/
theorem claim5_counterexample :
    failuresDiagnosed (fun _ => false)
      (mainRun envReadFail ["prog", "1.2.3.4"] "c\n".toList).1 = false := by decide

/-- Claim C5 (amended): whenever any API call other than
`debug_proxy_read_response` returns a code other than IdeviceSuccess, the
failure is made visible as a stderr diagnostic later in the trace; a failing
`debug_proxy_read_response` is silently treated like end-of-responses and
terminates the drain loop without any diagnostic. -/
theorem claim5_theorem (env : Env) (argv : List String) (input : List Char) :
    failuresDiagnosed skipRead (mainRun env argv input).1 = true := by
  by_cases h2 : argv.length < 2
  · rw [mainRun_usage env argv input h2]
    simp [failuresDiagnosed]
  · by_cases hip : env.ipOk = true
    · by_cases p1 : env.pairingReadErr = 0
      · by_cases p2 : env.tcpProviderErr = 0
        · by_cases p3 : env.coreConnectErr = 0
          · by_cases p4 : env.rsdPortErr = 0
            · by_cases p5 : env.createAdapterErr = 0
              · by_cases p6 : env.adapterConnectErr = 0
                · by_cases p7 : env.handshakeErr = 0
                  · by_cases p8 : env.debugProxyErr = 0
                    · rw [mainRun_ok env argv input h2 hip p1 p2 p3 p4 p5 p6 p7 p8]
                      refine fd_append _ _ _ (fd_append _ _ _ ?_ (fd_shellLoop env 0 input)) ?_
                      · simp [setupOkEvents, failuresDiagnosed]
                      · simp [cleanupEvents, failuresDiagnosed]
                    · rw [mainRun_fail8 env argv input h2 hip p1 p2 p3 p4 p5 p6 p7 p8]
                      simp [failuresDiagnosed, isErrPrint]
                  · rw [mainRun_fail7 env argv input h2 hip p1 p2 p3 p4 p5 p6 p7]
                    simp [failuresDiagnosed, isErrPrint]
                · rw [mainRun_fail6 env argv input h2 hip p1 p2 p3 p4 p5 p6]
                  simp [failuresDiagnosed, isErrPrint]
              · rw [mainRun_fail5 env argv input h2 hip p1 p2 p3 p4 p5]
                simp [failuresDiagnosed, isErrPrint]
            · rw [mainRun_fail4 env argv input h2 hip p1 p2 p3 p4]
              simp [failuresDiagnosed, isErrPrint]
          · rw [mainRun_fail3 env argv input h2 hip p1 p2 p3]
            simp [failuresDiagnosed, isErrPrint]
        · rw [mainRun_fail2 env argv input h2 hip p1 p2]
          simp [failuresDiagnosed, isErrPrint]
      · rw [mainRun_fail1 env argv input h2 hip p1]
        simp [failuresDiagnosed, isErrPrint]
    · have hip2 : env.ipOk = false := by simpa using hip
      rw [mainRun_badIp env argv input h2 hip2]
      simp [failuresDiagnosed]

/-! ## Send counting -/

theorem sendCount_drainEvents (rs : List (Nat × Option String)) :
    callCount isSendApi (drainEvents rs) = 0 := by
  induction rs with
  | nil => simp [drainEvents, callCount, isSendApi]
  | cons p rest ih =>
    obtain ⟨e, r⟩ := p
    by_cases he : e = 0
    · subst he
      cases r with
      | none => simp [drainEvents, callCount, isSendApi]
      | some s =>
        simp [drainEvents, callCount, isSendApi, ih]
    · simp [drainEvents, he, callCount, isSendApi]

theorem sendCount_respEvents (r : Option String) :
    callCount isSendApi (respEvents r) = 0 := by
  cases r <;> simp [respEvents, callCount, isSendApi]

theorem sendCount_iterEvents (env : Env) (i : Nat) (line : List Char) :
    callCount isSendApi (iterEvents env i line) ≤ 1 := by
  unfold iterEvents
  by_cases hc : env.cmdNewOk i
  · simp only [hc, if_true]
    by_cases hs : (env.sendRes i).1 ≠ 0
    · simp [hs, callCount, isSendApi]
    · simp [hs, callCount, callCount_append, isSendApi,
        sendCount_respEvents (env.sendRes i).2,
        sendCount_drainEvents (env.readRes i)]
  · simp [hc, callCount, isSendApi]

theorem sends_le_prompts_shellLoop_aux : ∀ (n : Nat) (env : Env) (i : Nat)
    (input : List Char), input.length ≤ n →
    callCount isSendApi (shellLoop env i input) ≤
      promptCount (shellLoop env i input) := by
  intro n
  induction n with
  | zero =>
    intro env i input h
    have : input = [] := List.length_eq_zero.mp (Nat.le_zero.mp h)
    subst this
    rw [shellLoop_eq]
    simp [callCount, promptCount, isSendApi, isPrompt]
  | succ n ih =>
    intro env i input h
    rw [shellLoop_eq]
    cases input with
    | nil => simp [callCount, promptCount, isSendApi, isPrompt]
    | cons c rest =>
      have hlt : (fgetsAux 1023 (c :: rest)).2.length < (c :: rest).length :=
        fgetsAux_snd_length_lt 1022 c rest
      by_cases hq : stripNewline (fgetsAux 1023 (c :: rest)).1 = "quit".toList
      · simp [hq, callCount, promptCount, isSendApi, isPrompt]
      · have h1 := sendCount_iterEvents env i (stripNewline (fgetsAux 1023 (c :: rest)).1)
        have h2 := ih env (i + 1) (fgetsAux 1023 (c :: rest)).2
          (by simp only [List.length_cons] at hlt h; omega)
        simp only [if_neg hq]
        rw [callCount_printOut, callCount_append, promptCount_cons, promptCount_append]
        have hp : (if isPrompt (Ev.printOut "debug> ") then 1 else 0) = 1 := by
          simp [isPrompt]
        rw [hp]
        omega

theorem sends_le_prompts_shellLoop (env : Env) (i : Nat) (input : List Char) :
    callCount isSendApi (shellLoop env i input) ≤
      promptCount (shellLoop env i input) :=
  sends_le_prompts_shellLoop_aux input.length env i input le_rfl

theorem sends_le_prompts_mainRun (env : Env) (argv : List String)
    (input : List Char) :
    callCount isSendApi (mainRun env argv input).1 ≤
      promptCount (mainRun env argv input).1 := by
  by_cases h2 : argv.length < 2
  · rw [mainRun_usage env argv input h2]
    simp [callCount, isSendApi]
  · by_cases hip : env.ipOk = true
    · by_cases p1 : env.pairingReadErr = 0
      · by_cases p2 : env.tcpProviderErr = 0
        · by_cases p3 : env.coreConnectErr = 0
          · by_cases p4 : env.rsdPortErr = 0
            · by_cases p5 : env.createAdapterErr = 0
              · by_cases p6 : env.adapterConnectErr = 0
                · by_cases p7 : env.handshakeErr = 0
                  · by_cases p8 : env.debugProxyErr = 0
                    · rw [mainRun_ok env argv input h2 hip p1 p2 p3 p4 p5 p6 p7 p8]
                      show callCount isSendApi _ ≤ promptCount _
                      rw [callCount_append, callCount_append,
                        promptCount_append, promptCount_append]
                      have hs := sends_le_prompts_shellLoop env 0 input
                      have hset : callCount isSendApi (setupOkEvents env argv) = 0 := by
                        simp [setupOkEvents, callCount, isSendApi]
                      have hcl : callCount isSendApi cleanupEvents = 0 := by
                        simp [cleanupEvents, callCount, isSendApi]
                      omega
                    · rw [mainRun_fail8 env argv input h2 hip p1 p2 p3 p4 p5 p6 p7 p8]
                      simp [callCount, isSendApi]
                  · rw [mainRun_fail7 env argv input h2 hip p1 p2 p3 p4 p5 p6 p7]
                    simp [callCount, isSendApi]
                · rw [mainRun_fail6 env argv input h2 hip p1 p2 p3 p4 p5 p6]
                  simp [callCount, isSendApi]
              · rw [mainRun_fail5 env argv input h2 hip p1 p2 p3 p4 p5]
                simp [callCount, isSendApi]
            · rw [mainRun_fail4 env argv input h2 hip p1 p2 p3 p4]
              simp [callCount, isSendApi]
          · rw [mainRun_fail3 env argv input h2 hip p1 p2 p3]
            simp [callCount, isSendApi]
        · rw [mainRun_fail2 env argv input h2 hip p1 p2]
          simp [callCount, isSendApi]
      · rw [mainRun_fail1 env argv input h2 hip p1]
        simp [callCount, isSendApi]
    · have hip2 : env.ipOk = false := by simpa using hip
      rw [mainRun_badIp env argv input h2 hip2]
      simp [callCount, isSendApi]

/-- Claim C6: each loop iteration sends at most one command; when
`debug_proxy_send_command` fails the iteration ends immediately after
freeing the command and printing the error (no further events, hence no
resend), and over any whole run the number of `debug_proxy_send_command`
calls never exceeds the number of prompts printed — the driver never
retries a command without a fresh prompt in between. -/
theorem claim6_theorem (env : Env) (argv : List String) (input : List Char)
    (i : Nat) (line : List Char) :
    callCount isSendApi (iterEvents env i line) ≤ 1 ∧
    (env.cmdNewOk i = true → (env.sendRes i).1 ≠ 0 →
      iterEvents env i line =
        [Ev.call (ApiCall.commandNew
            ((parseCommandLine line).1.map (fun cs => String.mk cs))
            ((parseCommandLine line).2.map (fun cs => String.mk cs))) 0,
          Ev.call (ApiCall.sendCommand
            ((parseCommandLine line).1.map (fun cs => String.mk cs))
            ((parseCommandLine line).2.map (fun cs => String.mk cs)))
            (env.sendRes i).1,
          Ev.call ApiCall.commandFree 0,
          Ev.printErr ("Command failed with error: " ++
            toString (env.sendRes i).1 ++ "\n")]) ∧
    callCount isSendApi (mainRun env argv input).1 ≤
      promptCount (mainRun env argv input).1 := by
  refine ⟨sendCount_iterEvents env i line, ?_, sends_le_prompts_mainRun env argv input⟩
  intro hc hs
  unfold iterEvents
  simp [hc, hs]

/-- An environment in which `debug_proxy_send_command` fails with code 5. -/
def envSendFail : Env :=
  { envBase with sendRes := fun _ => (5, none) }

theorem claim6_witness :
    envSendFail.cmdNewOk 0 = true ∧ (envSendFail.sendRes 0).1 ≠ 0 ∧
    iterEvents envSendFail 0 "c".toList =
      [Ev.call (ApiCall.commandNew
          ((parseCommandLine "c".toList).1.map (fun cs => String.mk cs))
          ((parseCommandLine "c".toList).2.map (fun cs => String.mk cs))) 0,
        Ev.call (ApiCall.sendCommand
          ((parseCommandLine "c".toList).1.map (fun cs => String.mk cs))
          ((parseCommandLine "c".toList).2.map (fun cs => String.mk cs)))
          (envSendFail.sendRes 0).1,
        Ev.call ApiCall.commandFree 0,
        Ev.printErr ("Command failed with error: " ++
          toString (envSendFail.sendRes 0).1 ++ "\n")] :=
  ⟨rfl, by decide,
    (claim6_theorem envSendFail [] [] 0 "c".toList).2.1 rfl (by decide)⟩

/-- Claim C9: when the setup succeeds, main returns 0 and frees the
debug-proxy, handshake and adapter handles exactly once each, whatever
stdin holds; the loop stops exactly at end-of-file (empty remaining input:
one final prompt, nothing else) or at a line that, after newline stripping,
is exactly `quit` (one prompt, and in particular no command is constructed
or sent from the quit line); on any other line the loop runs the iteration
body and continues. -/
theorem claim9_theorem (env : Env) (argv : List String) (input : List Char)
    (hargc : 2 ≤ argv.length) (hip : env.ipOk = true)
    (p1 : env.pairingReadErr = 0) (p2 : env.tcpProviderErr = 0)
    (p3 : env.coreConnectErr = 0) (p4 : env.rsdPortErr = 0)
    (p5 : env.createAdapterErr = 0) (p6 : env.adapterConnectErr = 0)
    (p7 : env.handshakeErr = 0) (p8 : env.debugProxyErr = 0) :
    (mainRun env argv input).2 = 0 ∧
    callCount (fun a => a == ApiCall.debugProxyFree) (mainRun env argv input).1 = 1 ∧
    callCount (fun a => a == ApiCall.rsdHandshakeFree) (mainRun env argv input).1 = 1 ∧
    callCount (fun a => a == ApiCall.adapterFree) (mainRun env argv input).1 = 1 ∧
    (∀ j : Nat, shellLoop env j [] = [Ev.printOut "debug> "]) ∧
    (∀ (j : Nat) (c : Char) (rest : List Char),
      stripNewline (fgetsAux 1023 (c :: rest)).1 = "quit".toList →
      shellLoop env j (c :: rest) = [Ev.printOut "debug> "] ∧
      callCount isSendApi (shellLoop env j (c :: rest)) = 0 ∧
      callCount isCmdNewApi (shellLoop env j (c :: rest)) = 0) ∧
    (∀ (j : Nat) (c : Char) (rest : List Char),
      stripNewline (fgetsAux 1023 (c :: rest)).1 ≠ "quit".toList →
      shellLoop env j (c :: rest) =
        Ev.printOut "debug> " ::
          (iterEvents env j (stripNewline (fgetsAux 1023 (c :: rest)).1) ++
            shellLoop env (j + 1) (fgetsAux 1023 (c :: rest)).2)) := by
  have h2 : ¬ argv.length < 2 := by omega
  have hquit : ∀ (j : Nat) (c : Char) (rest : List Char),
      stripNewline (fgetsAux 1023 (c :: rest)).1 = "quit".toList →
      shellLoop env j (c :: rest) = [Ev.printOut "debug> "] := by
    intro j c rest hq
    rw [shellLoop_eq]
    simp [hq]
  rw [mainRun_ok env argv input h2 hip p1 p2 p3 p4 p5 p6 p7 p8]
  refine ⟨rfl, ?_, ?_, ?_, ?_, ?_, ?_⟩
  · rw [callCount_append, callCount_append, debugProxyFree_shellLoop env 0 input]
    simp [setupOkEvents, cleanupEvents, callCount]
  · rw [callCount_append, callCount_append, rsdHandshakeFree_shellLoop env 0 input]
    simp [setupOkEvents, cleanupEvents, callCount]
  · rw [callCount_append, callCount_append, adapterFree_shellLoop env 0 input]
    simp [setupOkEvents, cleanupEvents, callCount]
  · intro j
    rfl
  · intro j c rest hq
    refine ⟨hquit j c rest hq, ?_, ?_⟩
    · rw [hquit j c rest hq]
      simp [callCount, isSendApi]
    · rw [hquit j c rest hq]
      simp [callCount, isCmdNewApi]
  · intro j c rest hq
    rw [shellLoop_eq]
    show Ev.printOut "debug> " ::
        (if stripNewline (fgetsAux 1023 (c :: rest)).1 = "quit".toList then []
         else iterEvents env j (stripNewline (fgetsAux 1023 (c :: rest)).1) ++
           shellLoop env (j + 1) (fgetsAux 1023 (c :: rest)).2) = _
    rw [if_neg hq]

theorem claim9_witness :
    2 ≤ (["prog", "1.2.3.4"] : List String).length ∧ envBase.ipOk = true ∧
    ((mainRun envBase ["prog", "1.2.3.4"] "quit\n".toList).2 = 0 ∧
    callCount (fun a => a == ApiCall.debugProxyFree)
      (mainRun envBase ["prog", "1.2.3.4"] "quit\n".toList).1 = 1 ∧
    callCount (fun a => a == ApiCall.rsdHandshakeFree)
      (mainRun envBase ["prog", "1.2.3.4"] "quit\n".toList).1 = 1 ∧
    callCount (fun a => a == ApiCall.adapterFree)
      (mainRun envBase ["prog", "1.2.3.4"] "quit\n".toList).1 = 1 ∧
    (∀ j : Nat, shellLoop envBase j [] = [Ev.printOut "debug> "]) ∧
    (∀ (j : Nat) (c : Char) (rest : List Char),
      stripNewline (fgetsAux 1023 (c :: rest)).1 = "quit".toList →
      shellLoop envBase j (c :: rest) = [Ev.printOut "debug> "] ∧
      callCount isSendApi (shellLoop envBase j (c :: rest)) = 0 ∧
      callCount isCmdNewApi (shellLoop envBase j (c :: rest)) = 0) ∧
    (∀ (j : Nat) (c : Char) (rest : List Char),
      stripNewline (fgetsAux 1023 (c :: rest)).1 ≠ "quit".toList →
      shellLoop envBase j (c :: rest) =
        Ev.printOut "debug> " ::
          (iterEvents envBase j (stripNewline (fgetsAux 1023 (c :: rest)).1) ++
            shellLoop envBase (j + 1) (fgetsAux 1023 (c :: rest)).2))) :=
  ⟨by decide, rfl,
    claim9_theorem envBase ["prog", "1.2.3.4"] "quit\n".toList
      (by decide) rfl rfl rfl rfl rfl rfl rfl rfl rfl⟩

end DebugProxy
